import Mathlib

/-!
# Request pipeline of the `wechy` / `fider` web backend

A shallow embedding of `router.go` (`errorHandler`, `wrapFunc`, `wrapMiddleware`, `get`,
`post`, `use`, `group`, `GetMainEngine`) and of the two settings handlers of
`app/handlers/admin.go` (`UpdateSettings`, `SaveOAuthConfig`), followed by the theorems
about them.
-/

set_option linter.dupNamespace false
set_option linter.unusedVariables false
set_option linter.unusedTactic false
set_option linter.unreachableTactic false

namespace Wechy

/-! ## Errors and the outermost error handler (`router.go`, lines 29-37) -/

/-- Sliding-window search: `hasInfix s sub` tells whether `sub` occurs in `s` as a block of
consecutive characters. -/
def hasInfix : List Char → List Char → Bool
  | [], sub => sub.isEmpty
  | c :: cs, sub => sub.isPrefixOf (c :: cs) || hasInfix cs sub

/-- Go's `strings.Contains(s, substr)`: `substr` is within `s`. Texts are kept as sequences
of characters; the sought text `code=404` is plain ASCII, for which searching characters and
searching bytes of a UTF-8 text agree. -/
def strings.Contains (s substr : String) : Bool :=
  hasInfix s.toList substr.toList

/-- A Go `error` value as the router can meet it: either an `echo.HTTPError` carrying a
status code and a message, or any other error, known by its text. -/
inductive GoError where
  | HTTPError (code : Nat) (message : String)
  | other (text : String)
  deriving DecidableEq, Repr

/-- The method `Error()` of an error. For `echo.HTTPError` the library formats the text as
`code=<code>, message=<message>`. -/
def GoError.Error : GoError → String
  | .HTTPError code message => "code=" ++ toString code ++ ", message=" ++ message
  | .other text => text

/-- Levels of the two logger calls made by `errorHandler`. -/
inductive LogLevel where
  | Debug
  | Error
  deriving DecidableEq, Repr

/-- One call `c.Render(code, name, data)`; `data` is an `echo.Map`, kept as its list of
key/value pairs (`echo.Map{}` is the empty list). -/
structure Rendered where
  code : Nat
  name : String
  data : List (String × String)
  deriving DecidableEq, Repr

/-- The part of an `echo.Context` that `errorHandler` acts on: the calls received by its
logger (server side) and the responses rendered to the client, oldest first. -/
structure ResponseContext where
  logged : List (LogLevel × GoError)
  rendered : List Rendered
  deriving DecidableEq, Repr

/-- The call `c.Logger().Debug(e)`. -/
def ResponseContext.LoggerDebug (c : ResponseContext) (e : GoError) : ResponseContext :=
  { c with logged := c.logged ++ [(LogLevel.Debug, e)] }

/-- The call `c.Logger().Error(e)`. -/
def ResponseContext.LoggerError (c : ResponseContext) (e : GoError) : ResponseContext :=
  { c with logged := c.logged ++ [(LogLevel.Error, e)] }

/-- The call `c.Render(code, name, data)`. -/
def ResponseContext.Render (c : ResponseContext) (code : Nat) (name : String)
    (data : List (String × String)) : ResponseContext :=
  { c with rendered := c.rendered ++ [{ code := code, name := name, data := data }] }

/-- The constant `http.StatusNotFound`. -/
def http.StatusNotFound : Nat := 404

/-- The constant `http.StatusInternalServerError`. -/
def http.StatusInternalServerError : Nat := 500

/-- The function `errorHandler(e error, c echo.Context)`, passing the context explicitly. -/
def errorHandler (e : GoError) (c : ResponseContext) : ResponseContext :=
  if strings.Contains e.Error "code=404" then
    let c := c.LoggerDebug e
    c.Render http.StatusNotFound "404.html" []
  else
    let c := c.LoggerError e
    c.Render http.StatusInternalServerError "500.html" []

/-- The responses `errorHandler e c` adds to those already rendered on `c`. -/
def renderedBy (e : GoError) (c : ResponseContext) : List Rendered :=
  (errorHandler e c).rendered.drop c.rendered.length

/-- The logger calls `errorHandler e c` adds to those already received on `c`. -/
def loggedBy (e : GoError) (c : ResponseContext) : List (LogLevel × GoError) :=
  (errorHandler e c).logged.drop c.logged.length

/-- The not-found response. -/
def notFoundResponse : Rendered := { code := 404, name := "404.html", data := [] }

/-- The generic server-error response. -/
def serverErrorResponse : Rendered := { code := 500, name := "500.html", data := [] }

/-! ## Contexts, handlers and middlewares (`router.go`, lines 52-65) -/

/-- Modelled from the spec: the type `models.Role` is declared outside the files at hand;
the spec gives the ordered set Visitor (unauthenticated), Member, Administrator.
`router.go` names `models.RoleMember` and `models.RoleAdministrator`. -/
inductive models.Role where
  | RoleVisitor
  | RoleMember
  | RoleAdministrator
  deriving DecidableEq, Repr

/-- Modelled from the spec: the type `models.User` is declared outside the files at hand;
the spec gives an identifier, the tenant the user belongs to, and a role. -/
structure models.User where
  id : Nat
  tenant : Nat
  role : models.Role
  deriving DecidableEq, Repr

/-- Modelled from the spec: the type `models.Tenant` is declared outside the files at hand;
the spec gives an identifier and a canonical host. -/
structure models.Tenant where
  id : Nat
  host : String
  deriving DecidableEq, Repr

/-- Modelled from the spec: the request-scoped values threaded through the framework's
per-request object: the inbound host, the tenant once resolved, the identity once read. -/
structure RequestScope where
  host : String
  tenant : Option models.Tenant
  user : Option models.User
  deriving DecidableEq, Repr

/-- The interface `echo.Context`, by its implementations: the framework's own context, and
a `web.Context` (which embeds an `echo.Context` and so is one). -/
inductive EchoContext where
  | core (scope : RequestScope)
  | web (inner : EchoContext)
  deriving DecidableEq, Repr

/-- The request-scoped values behind a context; a `web.Context` answers with those of the
context it embeds. -/
def EchoContext.scope : EchoContext → RequestScope
  | .core scope => scope
  | .web inner => inner.scope

/-- The struct `web.Context{Context: c}`. -/
structure web.Context where
  Context : EchoContext
  deriving DecidableEq, Repr

/-- A `web.Context` handed over where an `echo.Context` is expected, as in `h(c)` of
`wrapMiddleware`. -/
def web.Context.asEcho (c : web.Context) : EchoContext :=
  .web c.Context

/-- The identity attached to the context, if any. -/
def web.Context.User (c : web.Context) : Option models.User :=
  c.Context.scope.user

/-- The type `echo.HandlerFunc`; `ρ` stands for all a call produces (the returned error
and the response written). -/
abbrev echo.HandlerFunc (ρ : Type) := EchoContext → ρ

/-- The type `echo.MiddlewareFunc`. -/
abbrev echo.MiddlewareFunc (ρ : Type) := echo.HandlerFunc ρ → echo.HandlerFunc ρ

/-- The type `web.HandlerFunc`. -/
abbrev web.HandlerFunc (ρ : Type) := web.Context → ρ

/-- The type `web.MiddlewareFunc`. -/
abbrev web.MiddlewareFunc (ρ : Type) := web.HandlerFunc ρ → web.HandlerFunc ρ

/-- The function `wrapFunc(handler web.HandlerFunc) echo.HandlerFunc`. -/
def wrapFunc {ρ : Type} (handler : web.HandlerFunc ρ) : echo.HandlerFunc ρ :=
  fun c =>
    let ctx : web.Context := { Context := c }
    handler ctx

/-- The function `wrapMiddleware(mw web.MiddlewareFunc) echo.MiddlewareFunc`. -/
def wrapMiddleware {ρ : Type} (mw : web.MiddlewareFunc ρ) : echo.MiddlewareFunc ρ :=
  fun h =>
    wrapFunc (mw (fun c => h c.asEcho))

/-- The framework's chaining of a handler with the middlewares registered for it:
`for i := len(middleware) - 1; i >= 0; i-- { h = middleware[i](h) }`, so that the first
registered middleware is the outermost. -/
def applyMiddleware {ρ : Type} (h : echo.HandlerFunc ρ) (middleware : List (echo.MiddlewareFunc ρ)) :
    echo.HandlerFunc ρ :=
  middleware.foldr (fun m h => m h) h

/-- A middleware that, on context `c`, produces `r` without calling the handler it was
given: whatever `next` is, the outcome is `r`. -/
def ShortCircuits {ρ : Type} (mw : web.MiddlewareFunc ρ) (c : web.Context) (r : ρ) : Prop :=
  ∀ next : web.HandlerFunc ρ, mw next c = r

/-! ## The services and the values registered on the router -/

/-- The interface `oauth.Service`, declared outside the files at hand: a service is known
here by a handle only. -/
structure oauth.Service where
  handle : Nat
  deriving DecidableEq, Repr

/-- The interface `storage.User`, known by a handle. -/
structure storage.User where
  handle : Nat
  deriving DecidableEq, Repr

/-- The interface `storage.Tenant`, known by a handle. -/
structure storage.Tenant where
  handle : Nat
  deriving DecidableEq, Repr

/-- The interface `storage.Idea`, known by a handle. -/
structure storage.Idea where
  handle : Nat
  deriving DecidableEq, Repr

/-- The struct `models.WechySettings`, known by a handle. -/
structure models.WechySettings where
  handle : Nat
  deriving DecidableEq, Repr

/-- The struct `WechyServices`: it holds reference to all Wechy services. -/
structure WechyServices where
  OAuth : oauth.Service
  User : storage.User
  Tenant : storage.Tenant
  Idea : storage.Idea
  Settings : models.WechySettings
  deriving DecidableEq, Repr

/-- The provider constants `oauth.FacebookProvider` and `oauth.GoogleProvider`. -/
inductive oauth.Provider where
  | FacebookProvider
  | GoogleProvider
  deriving DecidableEq, Repr

/-- The value `handlers.OAuth(tenants, oauth, users)`. -/
structure handlers.OAuth where
  tenants : storage.Tenant
  oauth : oauth.Service
  users : storage.User
  deriving DecidableEq, Repr

/-- The `web.HandlerFunc` values that `GetMainEngine` builds, each named after the
expression that builds it. -/
inductive Handler where
  | OAuthLogin (h : handlers.OAuth) (provider : oauth.Provider)
  | OAuthCallback (h : handlers.OAuth) (provider : oauth.Provider)
  | OAuthLogout (h : handlers.OAuth)
  | IdeaList (ideas : storage.Idea)
  | IdeaDetails (ideas : storage.Idea)
  | PostIdea (ideas : storage.Idea)
  | PostComment (ideas : storage.Idea)
  | Status (settings : models.WechySettings)
  | AdminWelcome
  deriving DecidableEq, Repr

/-- The `web.MiddlewareFunc` values that `GetMainEngine` builds from package
`middlewares`, each named after its constructor and carrying its arguments. -/
inductive Middleware where
  | OneYearCache
  | HostChecker (baseURL : String)
  | MultiTenant (tenants : storage.Tenant)
  | JwtGetter (users : storage.User)
  | JwtSetter
  | IsAuthenticated
  | IsAuthorized (roles : List models.Role)
  deriving DecidableEq, Repr

/-- The `echo.MiddlewareFunc` values registered on the router: the framework's own
`middleware.Gzip()`, or `wrapMiddleware(mw)`. -/
inductive EchoMiddleware where
  | Gzip
  | wrapMiddleware (mw : Middleware)
  deriving DecidableEq, Repr

/-- The `echo.HandlerFunc` values registered on the router: `wrapFunc(handler)`, or the
framework's file server for a directory or file `root`. -/
inductive EchoHandler where
  | wrapFunc (handler : Handler)
  | static (root : String)
  deriving DecidableEq, Repr

/-- One entry of the router's table: the handler registered for a method and a path, and
the middlewares chained around it at registration. -/
structure Route where
  method : String
  path : String
  handler : EchoHandler
  middleware : List EchoMiddleware
  deriving DecidableEq, Repr

/-- The struct `echo.Echo` as far as `GetMainEngine` sets it up: the router-level
middlewares, the routes in registration order, and whether `HTTPErrorHandler` has been
set to `errorHandler` (the logger and the renderer play no part in routing and are left
out). -/
structure Echo where
  middleware : List EchoMiddleware
  routes : List Route
  HTTPErrorHandler : Option (GoError → ResponseContext → ResponseContext)

/-- The struct `echo.Group`: the path the group is mounted on and the middlewares
registered on it so far. -/
structure Group where
  name : String
  middleware : List EchoMiddleware
  deriving DecidableEq, Repr

/-- The call `echo.New()`. -/
def Echo.New : Echo :=
  { middleware := [], routes := [], HTTPErrorHandler := none }

/-- The framework's `Echo.Use`: appends a router-level middleware. -/
def Echo.Use (e : Echo) (m : EchoMiddleware) : Echo :=
  { e with middleware := e.middleware ++ [m] }

/-- The framework's `Echo.Add`: appends a route. -/
def Echo.Add (e : Echo) (method path : String) (handler : EchoHandler)
    (middleware : List EchoMiddleware) : Echo :=
  { e with routes := e.routes ++
      [{ method := method, path := path, handler := handler, middleware := middleware }] }

/-- The framework's `Group.Use`: appends a middleware to the group (the catch-all route
that some versions of the framework register alongside is not tracked). -/
def Group.Use (g : Group) (m : EchoMiddleware) : Group :=
  { g with middleware := g.middleware ++ [m] }

/-- The framework's `Group.GET`: the route is mounted under the group's path and chained
with the middlewares the group holds at this moment. -/
def Group.GET (g : Group) (e : Echo) (path : String) (handler : EchoHandler) : Echo :=
  e.Add "GET" (g.name ++ path) handler g.middleware

/-- The framework's `Group.POST`. -/
def Group.POST (g : Group) (e : Echo) (path : String) (handler : EchoHandler) : Echo :=
  e.Add "POST" (g.name ++ path) handler g.middleware

/-- The framework's `Echo.Static`: serves `root` at `path` and below it. -/
def Echo.Static (e : Echo) (path root : String) : Echo :=
  let e := e.Add "GET" path (.static root) []
  if path = "/" then e.Add "GET" (path ++ "*") (.static root) []
  else e.Add "GET" (path ++ "/*") (.static root) []

/-- The framework's `Group.Static`: as `Echo.Static`, through the group's `GET`. -/
def Group.Static (g : Group) (e : Echo) (path root : String) : Echo :=
  let e := g.GET e path (.static root)
  if path = "/" then g.GET e (path ++ "*") (.static root)
  else g.GET e (path ++ "/*") (.static root)

/-! ## Registration helpers and `GetMainEngine` (`router.go`, lines 67-147) -/

/-- The function `get(group, path, handler)`; the router the group belongs to is passed
along and returned with the route added. -/
def get (router : Echo) (group : Group) (path : String) (handler : Handler) : Echo :=
  group.GET router path (.wrapFunc handler)

/-- The function `post(group, path, handler)`. -/
def post (router : Echo) (group : Group) (path : String) (handler : Handler) : Echo :=
  group.POST router path (.wrapFunc handler)

/-- The function `use(group, mw)`. -/
def use (group : Group) (mw : Middleware) : Group :=
  group.Use (.wrapMiddleware mw)

/-- The function `group(router, name)`: a fresh group mounted on `name`. -/
def group (router : Echo) (name : String) : Group :=
  { name := name, middleware := [] }

/-- The router built by `GetMainEngine` together with the five groups (`assetsGroup`,
`authGroup`, `appGroup`, `securedGroup`, `adminGroup`) as they stand when it returns. -/
structure MainEngine where
  router : Echo
  groups : List Group

/-- The body of `GetMainEngine(ctx)`, statement by statement. `MustGet` stands for
`env.MustGet`, which reads a setting of the process environment. -/
def buildMainEngine (ctx : WechyServices) (MustGet : String → String) : MainEngine :=
  let router := Echo.New
  let router := { router with HTTPErrorHandler := some errorHandler }

  let router := router.Use .Gzip
  let router := router.Static "/favicon.ico" "favicon.ico"
  let assetsGroup := group router "/assets"
  let assetsGroup := use assetsGroup .OneYearCache
  let router := assetsGroup.Static router "/" "dist"

  let oauthHandlers : handlers.OAuth := { tenants := ctx.Tenant, oauth := ctx.OAuth, users := ctx.User }
  let authGroup := group router "/oauth"
  let authGroup := use authGroup (.HostChecker (MustGet "AUTH_ENDPOINT"))
  let router := get router authGroup "/facebook" (.OAuthLogin oauthHandlers .FacebookProvider)
  let router := get router authGroup "/facebook/callback" (.OAuthCallback oauthHandlers .FacebookProvider)
  let router := get router authGroup "/google" (.OAuthLogin oauthHandlers .GoogleProvider)
  let router := get router authGroup "/google/callback" (.OAuthCallback oauthHandlers .GoogleProvider)

  let appGroup := group router ""
  let appGroup := use appGroup (.MultiTenant ctx.Tenant)
  let appGroup := use appGroup (.JwtGetter ctx.User)
  let appGroup := use appGroup .JwtSetter
  let router := get router appGroup "/" (.IdeaList ctx.Idea)
  let router := get router appGroup "/ideas/:number" (.IdeaDetails ctx.Idea)
  let router := get router appGroup "/logout" (.OAuthLogout oauthHandlers)
  let router := get router appGroup "/api/status" (.Status ctx.Settings)

  let securedGroup := group router "/api"
  let securedGroup := use securedGroup (.MultiTenant ctx.Tenant)
  let securedGroup := use securedGroup (.JwtGetter ctx.User)
  let securedGroup := use securedGroup .JwtSetter
  let securedGroup := use securedGroup .IsAuthenticated
  let router := post router securedGroup "/ideas" (.PostIdea ctx.Idea)
  let router := post router securedGroup "/ideas/:id/comments" (.PostComment ctx.Idea)

  let adminGroup := group router "/admin"
  let adminGroup := use adminGroup (.MultiTenant ctx.Tenant)
  let adminGroup := use adminGroup (.JwtGetter ctx.User)
  let adminGroup := use adminGroup .JwtSetter
  let adminGroup := use adminGroup .IsAuthenticated
  let adminGroup := use adminGroup (.IsAuthorized [.RoleMember, .RoleAdministrator])
  let router := get router adminGroup "" .AdminWelcome

  { router := router, groups := [assetsGroup, authGroup, appGroup, securedGroup, adminGroup] }

/-- The function `GetMainEngine(ctx)`: it returns the main HTTP engine. -/
def GetMainEngine (ctx : WechyServices) (MustGet : String → String) : Echo :=
  (buildMainEngine ctx MustGet).router

/-- Services with distinct handles, for concrete evaluations. -/
def sampleServices : WechyServices :=
  { OAuth := ⟨1⟩, User := ⟨2⟩, Tenant := ⟨3⟩, Idea := ⟨4⟩, Settings := ⟨5⟩ }

/-- An environment in which `AUTH_ENDPOINT` is `http://login.test.canhearyou.com`. -/
def sampleMustGet : String → String :=
  fun name => if name = "AUTH_ENDPOINT" then "http://login.test.canhearyou.com" else ""

/-! ## Running a registered route -/

/-- What the registered values do when called: one function per middleware and handler
built outside `router.go`. -/
structure Behaviour (ρ : Type) where
  middleware : Middleware → web.MiddlewareFunc ρ
  handler : Handler → web.HandlerFunc ρ
  gzip : echo.MiddlewareFunc ρ
  static : String → echo.HandlerFunc ρ

/-- The function behind a registered `echo.MiddlewareFunc`. -/
def Behaviour.echoMiddleware {ρ : Type} (B : Behaviour ρ) : EchoMiddleware → echo.MiddlewareFunc ρ
  | .Gzip => B.gzip
  | .wrapMiddleware mw => wrapMiddleware (B.middleware mw)

/-- The function behind a registered `echo.HandlerFunc`. -/
def Behaviour.echoHandler {ρ : Type} (B : Behaviour ρ) : EchoHandler → echo.HandlerFunc ρ
  | .wrapFunc handler => wrapFunc (B.handler handler)
  | .static root => B.static root

/-- The handler of a route chained with a list of registered middlewares. -/
def chain {ρ : Type} (B : Behaviour ρ) (middleware : List EchoMiddleware) (handler : EchoHandler) :
    echo.HandlerFunc ρ :=
  applyMiddleware (B.echoHandler handler) (middleware.map B.echoMiddleware)

/-- The function the router calls for a route: its handler chained with its middlewares. -/
def Route.serve {ρ : Type} (B : Behaviour ρ) (r : Route) : echo.HandlerFunc ρ :=
  chain B r.middleware r.handler

/-- The middlewares of a route that come before the first occurrence of `m`. -/
def stagesBefore (m : EchoMiddleware) (middleware : List EchoMiddleware) : List EchoMiddleware :=
  middleware.takeWhile (fun x => x != m)

/-- The middlewares of a route that come after the first occurrence of `m`. -/
def stagesAfter (m : EchoMiddleware) (middleware : List EchoMiddleware) : List EchoMiddleware :=
  (middleware.dropWhile (fun x => x != m)).drop 1

/-- The tenant resolver, whatever storage it is bound to. -/
def Middleware.isMultiTenant : Middleware → Bool
  | .MultiTenant _ => true
  | _ => false

/-- The identity reader, whatever storage it is bound to. -/
def Middleware.isJwtGetter : Middleware → Bool
  | .JwtGetter _ => true
  | _ => false

/-- The authorization stages: `IsAuthenticated` and `IsAuthorized`. -/
def Middleware.isAuthorization : Middleware → Bool
  | .IsAuthenticated => true
  | .IsAuthorized _ => true
  | _ => false

/-- The tenant-scoped middlewares: the tenant resolver, the two session-token stages and
the two authorization stages. -/
def Middleware.isTenantScoped : Middleware → Bool
  | .MultiTenant _ => true
  | .JwtGetter _ => true
  | .JwtSetter => true
  | .IsAuthenticated => true
  | .IsAuthorized _ => true
  | _ => false

/-- Lifts a test on `web` middlewares to registered middlewares (`Gzip` fails it). -/
def EchoMiddleware.is (p : Middleware → Bool) : EchoMiddleware → Bool
  | .Gzip => false
  | .wrapMiddleware mw => p mw

/-- The role sets handed to `IsAuthorized` among a list of registered middlewares. -/
def authorizedRoleSets : List EchoMiddleware → List (List models.Role)
  | [] => []
  | .wrapMiddleware (.IsAuthorized roles) :: rest => roles :: authorizedRoleSets rest
  | _ :: rest => authorizedRoleSets rest

/-- The routes of an engine mounted on a given method and path. -/
def Echo.routesAt (e : Echo) (method path : String) : List Route :=
  e.routes.filter (fun r => r.method = method ∧ r.path = path)

/-- Method and path of the routes registered on the protected groups `/api` and `/admin`. -/
def protectedRoutes : List (String × String) :=
  [("POST", "/api/ideas"), ("POST", "/api/ideas/:id/comments"), ("GET", "/admin")]

/-- The registered stage `wrapMiddleware(middlewares.IsAuthenticated())`. -/
def authenticationStage : EchoMiddleware :=
  .wrapMiddleware .IsAuthenticated

/-! ## The stages of the pipeline, from the spec -/

/-- Modelled from the spec: the role rule of the AuthorizationGate, whose code
(`middlewares.IsAuthorized`) is outside the files at hand. A role is allowed when it is
present in the acceptable set, or implied by it through Administrator ⊇ Member. -/
def models.Role.satisfies (role : models.Role) (acceptable : List models.Role) : Bool :=
  acceptable.contains role ||
    (role == models.Role.RoleAdministrator && acceptable.contains models.Role.RoleMember)

/-- The three outcomes of the AuthorizationGate. -/
inductive GateDecision where
  | allow
  | AuthorizationError
  | AuthenticationError
  deriving DecidableEq, Repr

/-- Modelled from the spec: the AuthorizationGate (`middlewares.IsAuthorized`, outside the
files at hand). Given the identity attached to the request (possibly absent) and the
acceptable roles of the route, it allows the request when the role satisfies the set, fails
with `AuthorizationError` when an identity exists but is insufficient, and with
`AuthenticationError` when no identity exists at all. -/
def AuthorizationGate (identity : Option models.User) (acceptable : List models.Role) : GateDecision :=
  match identity with
  | none => .AuthenticationError
  | some user => if user.role.satisfies acceptable then .allow else .AuthorizationError

/-- Modelled from the spec: the TenantResolver (`middlewares.MultiTenant`, outside the
files at hand). The host of the request is looked up; on a match the tenant is attached to
the context handed to `next`, otherwise the chain ends with `notFound`. -/
def MultiTenant {ρ : Type} (lookup : String → Option models.Tenant) (notFound : ρ) :
    web.MiddlewareFunc ρ :=
  fun next c =>
    match lookup c.Context.scope.host with
    | some tenant => next { Context := .core { c.Context.scope with tenant := some tenant } }
    | none => notFound

/-- Modelled from the spec: `middlewares.IsAuthenticated` (outside the files at hand): a
request without identity ends with `unauthenticated`, any other goes on to `next`. -/
def IsAuthenticated {ρ : Type} (unauthenticated : ρ) : web.MiddlewareFunc ρ :=
  fun next c =>
    match c.User with
    | none => unauthenticated
    | some _ => next c

/-- Modelled from the spec: `middlewares.IsAuthorized(roles...)` (outside the files at
hand), the AuthorizationGate as a stage of the pipeline. -/
def IsAuthorized {ρ : Type} (unauthenticated forbidden : ρ) (roles : List models.Role) :
    web.MiddlewareFunc ρ :=
  fun next c =>
    match AuthorizationGate c.User roles with
    | .allow => next c
    | .AuthorizationError => forbidden
    | .AuthenticationError => unauthenticated

/-- A behaviour for concrete evaluations, with HTTP status codes as outcomes: the stages
above over a one-tenant storage, every other middleware passing the request on, and every
handler answering 200. -/
def sampleBehaviour : Behaviour Nat :=
  { middleware := fun mw =>
      match mw with
      | .MultiTenant _ =>
          MultiTenant (fun host => if host = "demo.example.com" then some ⟨1, host⟩ else none) 404
      | .IsAuthenticated => IsAuthenticated 401
      | .IsAuthorized roles => IsAuthorized 401 403 roles
      | _ => fun next c => next c
    handler := fun _ _ => 200
    gzip := fun next c => next c
    static := fun _ _ => 200 }

/-- A request for the unknown host `ghost.example.com`, without tenant or identity. -/
def ghostRequest : EchoContext :=
  .core { host := "ghost.example.com", tenant := none, user := none }

/-- A request for the known host `demo.example.com` that carries no identity. -/
def anonymousRequest : EchoContext :=
  .core { host := "demo.example.com", tenant := none, user := none }

/-- A request for the known host carrying the identity of a user with the given role. -/
def requestOf (role : models.Role) : EchoContext :=
  .core { host := "demo.example.com", tenant := none, user := some ⟨7, 1, role⟩ }

/-! ## The settings handlers (`app/handlers/admin.go`, lines 35-54 and 137-157) -/

/-- The result of `c.BindTo(input)`: the handlers read its field `Ok`; the messages stand
for whatever else the validation reports. -/
structure validate.Result where
  Ok : Bool
  Messages : List String
  deriving DecidableEq, Repr

/-- The field `Model` of an action (`actions.UpdateTenantSettings`,
`actions.CreateEditOAuthConfig`): the uploaded logo the handlers pass on, of a type `L`
declared outside the files at hand, and the remaining fields, of a type `R`. -/
structure actions.Model (L R : Type) where
  Logo : L
  fields : R
  deriving DecidableEq, Repr

/-- The command `cmd.UpdateTenantSettings{Settings: ...}` sent on the bus. -/
structure cmd.UpdateTenantSettings (L R : Type) where
  Settings : actions.Model L R
  deriving DecidableEq, Repr

/-- The calls a handler makes to its collaborators, with their arguments. -/
inductive Call (L R : Type) where
  | BindTo
  | ProcessImageUpload (logo : L) (directory : String)
  | Dispatch (command : cmd.UpdateTenantSettings L R)
  | SaveOAuthConfig (model : actions.Model L R)
  deriving DecidableEq, Repr

/-- The three ways a handler answers: `c.HandleValidation(result)`, `c.Failure(err)` and
`c.Ok(data)`. -/
inductive Response (ε : Type) where
  | HandleValidation (result : validate.Result)
  | Failure (err : ε)
  | Ok (data : List (String × String))
  deriving DecidableEq, Repr

/-- The collaborators of the handlers, each a function of the state `σ` of the world
outside the handler. `BindTo` fills the input and reports the validation;
`ProcessImageUpload` may fail and may update the upload it is given (it receives a
pointer); `Dispatch` and `SaveOAuthConfig` perform the write and may fail. -/
structure Collaborators (σ ε L R : Type) where
  BindTo : σ → (validate.Result × actions.Model L R) × σ
  ProcessImageUpload : L → String → σ → (Option ε × L) × σ
  Dispatch : cmd.UpdateTenantSettings L R → σ → Option ε × σ
  SaveOAuthConfig : actions.Model L R → σ → Option ε × σ

/-- The `*web.Context` of a handler of `admin.go`: the state of the world the
collaborators act on, and the record of the calls made to them, oldest first. -/
structure HandlerContext (σ L R : Type) where
  state : σ
  calls : List (Call L R)

section Handlers

variable {σ ε L R : Type}

/-- The call `c.BindTo(input)` on a fresh input. -/
def HandlerContext.BindTo (c : HandlerContext σ L R) (k : Collaborators σ ε L R) :
    validate.Result × actions.Model L R × HandlerContext σ L R :=
  let out := k.BindTo c.state
  (out.1.1, out.1.2, { state := out.2, calls := c.calls ++ [.BindTo] })

/-- The call `webutil.ProcessImageUpload(c, logo, directory)`. -/
def HandlerContext.ProcessImageUpload (c : HandlerContext σ L R) (k : Collaborators σ ε L R)
    (logo : L) (directory : String) : Option ε × L × HandlerContext σ L R :=
  let out := k.ProcessImageUpload logo directory c.state
  (out.1.1, out.1.2, { state := out.2, calls := c.calls ++ [.ProcessImageUpload logo directory] })

/-- The call `bus.Dispatch(c, command)`. -/
def HandlerContext.Dispatch (c : HandlerContext σ L R) (k : Collaborators σ ε L R)
    (command : cmd.UpdateTenantSettings L R) : Option ε × HandlerContext σ L R :=
  let out := k.Dispatch command c.state
  (out.1, { state := out.2, calls := c.calls ++ [.Dispatch command] })

/-- The call `c.Services().Tenants.SaveOAuthConfig(model)`. -/
def HandlerContext.SaveOAuthConfig (c : HandlerContext σ L R) (k : Collaborators σ ε L R)
    (model : actions.Model L R) : Option ε × HandlerContext σ L R :=
  let out := k.SaveOAuthConfig model c.state
  (out.1, { state := out.2, calls := c.calls ++ [.SaveOAuthConfig model] })

/-- The handler returned by `UpdateSettings()`: it updates the current tenant's settings. -/
def UpdateSettings (k : Collaborators σ ε L R) (c : HandlerContext σ L R) :
    Response ε × HandlerContext σ L R :=
  let (result, input, c) := c.BindTo k
  if !result.Ok then
    (.HandleValidation result, c)
  else
    let (err, logo, c) := c.ProcessImageUpload k input.Logo "logos"
    let input := { input with Logo := logo }
    match err with
    | some err => (.Failure err, c)
    | none =>
      let (err, c) := c.Dispatch k { Settings := input }
      match err with
      | some err => (.Failure err, c)
      | none => (.Ok [], c)

/-- The handler returned by `SaveOAuthConfig()`: it creates or edits an OAuth
configuration. -/
def SaveOAuthConfig (k : Collaborators σ ε L R) (c : HandlerContext σ L R) :
    Response ε × HandlerContext σ L R :=
  let (result, input, c) := c.BindTo k
  if !result.Ok then
    (.HandleValidation result, c)
  else
    let (err, logo, c) := c.ProcessImageUpload k input.Logo "logos"
    let input := { input with Logo := logo }
    match err with
    | some err => (.Failure err, c)
    | none =>
      let (err, c) := c.SaveOAuthConfig k input
      match err with
      | some err => (.Failure err, c)
      | none => (.Ok [], c)

/-- The calls a run of a handler made: those recorded after the run beyond the ones
recorded before it. -/
def callsOf (before : HandlerContext σ L R) (after : Response ε × HandlerContext σ L R) :
    List (Call L R) :=
  after.2.calls.drop before.calls.length

end Handlers

/-- Whether a call is a write (`bus.Dispatch` or `SaveOAuthConfig`). -/
def Call.isWrite {L R : Type} : Call L R → Bool
  | .Dispatch _ => true
  | .SaveOAuthConfig _ => true
  | _ => false

/-- Whether a call is an image upload. -/
def Call.isUpload {L R : Type} : Call L R → Bool
  | .ProcessImageUpload _ _ => true
  | _ => false

/-- Whether a response is `c.Ok(...)`. -/
def Response.isOk {ε : Type} : Response ε → Bool
  | .Ok _ => true
  | _ => false

/-- The contract of a three-step handler, in the words of the claim. Given the validation
`result` of the binding, the errors (if any) of the image upload and of the write, the three
calls `steps` in their order and the states `s1`, `s2`, `s3` the world is in after each of
them, the handler answered `out`, made the calls `calls` and left the world in `final`:
the first failure decides the answer and no later step is attempted; the answer is `Ok`
exactly when the three steps succeeded; the write is performed at most once. -/
def FirstFailureWins {σ ε L R : Type} (result : validate.Result) (uploadErr writeErr : Option ε)
    (steps : List (Call L R)) (s1 s2 s3 : σ)
    (out : Response ε) (calls : List (Call L R)) (final : σ) : Prop :=
  (result.Ok = false →
    out = .HandleValidation result ∧ calls = steps.take 1 ∧ final = s1 ∧
    (∀ call ∈ calls, call.isUpload = false ∧ call.isWrite = false)) ∧
  (result.Ok = true → ∀ err, uploadErr = some err →
    out = .Failure err ∧ calls = steps.take 2 ∧ final = s2 ∧
    (∀ call ∈ calls, call.isWrite = false)) ∧
  (result.Ok = true → uploadErr = none → ∀ err, writeErr = some err →
    out = .Failure err ∧ calls = steps ∧ final = s3) ∧
  (result.Ok = true → uploadErr = none → writeErr = none →
    out = .Ok [] ∧ calls = steps ∧ final = s3) ∧
  (out.isOk = true ↔ result.Ok = true ∧ uploadErr = none ∧ writeErr = none) ∧
  (calls.filter Call.isWrite).length ≤ 1

/-- Collaborators for concrete evaluations: the world is a counter of writes, the logo a
number; binding succeeds when `bindOk`, the upload fails with `uploadErr` if given (and
otherwise stores the logo under its successor), the write fails with `writeErr` if given
(and otherwise counts). -/
def sampleCollaborators (bindOk : Bool) (uploadErr writeErr : Option String) :
    Collaborators Nat String Nat String :=
  { BindTo := fun s => (({ Ok := bindOk, Messages := [] }, { Logo := 10, fields := "title" }), s)
    ProcessImageUpload := fun logo _ s => ((uploadErr, logo + 1), s)
    Dispatch := fun _ s => match writeErr with
      | some err => (some err, s)
      | none => (none, s + 1)
    SaveOAuthConfig := fun _ s => match writeErr with
      | some err => (some err, s)
      | none => (none, s + 1) }

/-! ## Theorems: the error handler -/

theorem hasInfix_iff (s sub : List Char) : hasInfix s sub = true ↔ sub <:+: s := by
  induction s with
  | nil => cases sub <;> simp [hasInfix]
  | cons c cs ih =>
    rw [hasInfix, Bool.or_eq_true, ih, List.infix_cons_iff, List.isPrefixOf_iff_prefix]

theorem contains_iff_infix (s substr : String) :
    strings.Contains s substr = true ↔ substr.toList <:+: s.toList := by
  unfold strings.Contains
  exact hasInfix_iff _ _

theorem errorHandler_rendered (e : GoError) (c : ResponseContext) :
    (errorHandler e c).rendered = c.rendered ++
      [if strings.Contains e.Error "code=404" then notFoundResponse else serverErrorResponse] := by
  unfold errorHandler
  split <;> rfl

theorem errorHandler_logged (e : GoError) (c : ResponseContext) :
    (errorHandler e c).logged = c.logged ++
      [(if strings.Contains e.Error "code=404" then LogLevel.Debug else LogLevel.Error, e)] := by
  unfold errorHandler
  split <;> rfl

theorem renderedBy_eq (e : GoError) (c : ResponseContext) :
    renderedBy e c =
      [if strings.Contains e.Error "code=404" then notFoundResponse else serverErrorResponse] := by
  unfold renderedBy
  rw [errorHandler_rendered, List.drop_left]

theorem loggedBy_eq (e : GoError) (c : ResponseContext) :
    loggedBy e c =
      [(if strings.Contains e.Error "code=404" then LogLevel.Debug else LogLevel.Error, e)] := by
  unfold loggedBy
  rw [errorHandler_logged, List.drop_left]

theorem notFoundResponse_ne : notFoundResponse ≠ serverErrorResponse := by decide

/-- The text of an `echo.HTTPError` with code 404 contains `code=404`. -/
theorem contains_of_code_404 (message : String) :
    strings.Contains (GoError.HTTPError 404 message).Error "code=404" = true := by
  have h : (GoError.HTTPError 404 message).Error = "code=404, message=" ++ message := by
    show "code=" ++ toString 404 ++ ", message=" ++ message = _
    have : toString 404 = "404" := by decide
    rw [this]
    rfl
  rw [h, contains_iff_infix, String.toList, String.toList, String.data_append]
  refine ⟨[], ", message=".toList ++ message.data, ?_⟩
  simp

/-- The text of an `echo.HTTPError` with code 401 or 403 contains `code=404` only when its
message does. -/
theorem contains_of_code_401_403 (code : Nat) (message : String) (hcode : code = 401 ∨ code = 403) :
    strings.Contains (GoError.HTTPError code message).Error "code=404" =
      strings.Contains message "code=404" := by
  have h1 : toString 401 = "401" := by decide
  have h3 : toString 403 = "403" := by decide
  have e1 : ("code=" ++ "401" ++ ", message=" ++ message).toList =
      ['c', 'o', 'd', 'e', '=', '4', '0', '1', ',', ' ', 'm', 'e', 's', 's', 'a', 'g', 'e', '='] ++
        message.toList := by
    simp [String.toList, String.data_append]
  have e3 : ("code=" ++ "403" ++ ", message=" ++ message).toList =
      ['c', 'o', 'd', 'e', '=', '4', '0', '3', ',', ' ', 'm', 'e', 's', 's', 'a', 'g', 'e', '='] ++
        message.toList := by
    simp [String.toList, String.data_append]
  have en : "code=404".toList = ['c', 'o', 'd', 'e', '=', '4', '0', '4'] := rfl
  rcases hcode with rfl | rfl
  · show hasInfix ("code=" ++ toString 401 ++ ", message=" ++ message).toList "code=404".toList = _
    rw [h1, e1, en]
    simp [hasInfix, List.isPrefixOf, strings.Contains, en]
  · show hasInfix ("code=" ++ toString 403 ++ ", message=" ++ message).toList "code=404".toList = _
    rw [h3, e3, en]
    simp [hasInfix, List.isPrefixOf, strings.Contains, en]


/-- C7: for every error `e`, `errorHandler` renders the not-found response (status 404,
template `404.html`) if and only if the text of `e` contains `code=404`, and otherwise the
generic server-error response (status 500, template `500.html`); it renders exactly one
response per error. So an HTTP error with code 404 (tenant not found) is answered with
not-found, and a failure whose text lacks `code=404` with the generic server error. -/
theorem errorHandler_not_found_iff (e : GoError) (c : ResponseContext) :
    (renderedBy e c = [notFoundResponse] ↔ "code=404".toList <:+: e.Error.toList) ∧
    (renderedBy e c = [serverErrorResponse] ↔ ¬ "code=404".toList <:+: e.Error.toList) ∧
    (errorHandler e c).rendered = c.rendered ++ renderedBy e c ∧
    (renderedBy e c).length = 1 ∧
    notFoundResponse = { code := http.StatusNotFound, name := "404.html", data := [] } ∧
    serverErrorResponse = { code := http.StatusInternalServerError, name := "500.html", data := [] } ∧
    (∀ message, renderedBy (.HTTPError 404 message) c = [notFoundResponse]) ∧
    (∀ text, ¬ "code=404".toList <:+: text.toList →
      renderedBy (.other text) c = [serverErrorResponse]) := by
  have hne := notFoundResponse_ne
  refine ⟨?_, ?_, ?_, ?_, rfl, rfl, ?_, ?_⟩
  · rw [renderedBy_eq, ← contains_iff_infix]
    by_cases h : strings.Contains e.Error "code=404" = true
    · simp [h]
    · simp [h, hne.symm]
  · rw [renderedBy_eq, ← contains_iff_infix]
    by_cases h : strings.Contains e.Error "code=404" = true
    · simp [h, hne]
    · simp [h]
  · rw [errorHandler_rendered, renderedBy_eq]
  · rw [renderedBy_eq]
    rfl
  · intro message
    rw [renderedBy_eq, contains_of_code_404]
    rfl
  · intro text h
    rw [← contains_iff_infix] at h
    rw [renderedBy_eq]
    simp only [GoError.Error, h]
    rfl

/-- C8: `errorHandler` leaks no detail of the error to the client: for two errors of the
same class (both texts contain `code=404`, or both do not) the response rendered is the
same, on whatever contexts, and its template data is the empty map; the error itself is
handed to the logger only. -/
theorem errorHandler_no_leak (e1 e2 : GoError) (c1 c2 : ResponseContext)
    (hclass : strings.Contains e1.Error "code=404" = strings.Contains e2.Error "code=404") :
    renderedBy e1 c1 = renderedBy e2 c2 ∧
    (∀ r ∈ renderedBy e1 c1, r.data = []) ∧
    (renderedBy e1 c1 = [notFoundResponse] ∨ renderedBy e1 c1 = [serverErrorResponse]) ∧
    (errorHandler e1 c1).rendered = c1.rendered ++ renderedBy e1 c1 ∧
    (∃ level, (errorHandler e1 c1).logged = c1.logged ++ [(level, e1)]) := by
  refine ⟨?_, ?_, ?_, ?_, ?_⟩
  · rw [renderedBy_eq, renderedBy_eq, hclass]
  · intro r hr
    rw [renderedBy_eq] at hr
    by_cases h : strings.Contains e1.Error "code=404" = true
    · simp [h] at hr
      subst hr
      rfl
    · simp [h] at hr
      subst hr
      rfl
  · rw [renderedBy_eq]
    by_cases h : strings.Contains e1.Error "code=404" = true
    · simp [h]
    · simp [h]
  · rw [errorHandler_rendered, renderedBy_eq]
  · exact ⟨_, errorHandler_logged e1 c1⟩

/-- Witness of C8: a storage failure and an HTTP 401 error, both of the class without
`code=404`, draw the same response. -/
theorem errorHandler_no_leak_witness :
    renderedBy (.other "pq: connection refused (10.0.0.5:5432)") ⟨[], []⟩ =
      renderedBy (.HTTPError 401 "Unauthorized") ⟨[], []⟩ :=
  (errorHandler_no_leak (.other "pq: connection refused (10.0.0.5:5432)")
    (.HTTPError 401 "Unauthorized") ⟨[], []⟩ ⟨[], []⟩ (by decide)).1

/-- C9, as stated, fails: the errors `code=401, message=Unauthorized` and
`code=403, message=Forbidden` reaching `errorHandler` are both answered with the generic
server-error response, status 500, not with status 401 or 403. -/
theorem errorHandler_unauthorized_counterexample :
    renderedBy (.HTTPError 401 "Unauthorized") ⟨[], []⟩ = [serverErrorResponse] ∧
    renderedBy (.HTTPError 403 "Forbidden") ⟨[], []⟩ = [serverErrorResponse] ∧
    (renderedBy (.HTTPError 401 "Unauthorized") ⟨[], []⟩).map (fun r => r.code) ≠ [401] ∧
    (renderedBy (.HTTPError 403 "Forbidden") ⟨[], []⟩).map (fun r => r.code) ≠ [403] := by
  decide

/-- C9, amended: `errorHandler` knows two classes of errors only. An HTTP error with code
401 (authentication required) or 403 (insufficient role) whose message does not itself
contain `code=404` is not answered as not-found: it is logged at level Error and answered
with the generic server-error response (status 500, template `500.html`). -/
theorem errorHandler_401_403_server_error (code : Nat) (message : String) (c : ResponseContext)
    (hcode : code = 401 ∨ code = 403)
    (hmessage : strings.Contains message "code=404" = false) :
    renderedBy (.HTTPError code message) c = [serverErrorResponse] ∧
    renderedBy (.HTTPError code message) c ≠ [notFoundResponse] ∧
    (errorHandler (.HTTPError code message) c).rendered = c.rendered ++ [serverErrorResponse] ∧
    loggedBy (.HTTPError code message) c = [(LogLevel.Error, .HTTPError code message)] := by
  have h := contains_of_code_401_403 code message hcode
  rw [hmessage] at h
  have hr : renderedBy (.HTTPError code message) c = [serverErrorResponse] := by
    rw [renderedBy_eq, h]
    rfl
  refine ⟨hr, ?_, ?_, ?_⟩
  · rw [hr]
    decide
  · rw [errorHandler_rendered, h]
    rfl
  · rw [loggedBy_eq, h]
    rfl

/-- Witness of the amended C9, at the error `code=403, message=Forbidden`. -/
theorem errorHandler_401_403_server_error_witness :
    renderedBy (.HTTPError 403 "Forbidden") ⟨[], []⟩ = [serverErrorResponse] :=
  (errorHandler_401_403_server_error 403 "Forbidden" ⟨[], []⟩ (Or.inr rfl) (by decide)).1


/-! ## Theorems: wrapping and chaining -/

theorem wrapMiddleware_apply {ρ : Type} (mw : web.MiddlewareFunc ρ) (h : echo.HandlerFunc ρ)
    (c : EchoContext) :
    wrapMiddleware mw h c = mw (fun w => h w.asEcho) { Context := c } := rfl

theorem applyMiddleware_cons {ρ : Type} (h : echo.HandlerFunc ρ) (m : echo.MiddlewareFunc ρ)
    (later : List (echo.MiddlewareFunc ρ)) :
    applyMiddleware h (m :: later) = m (applyMiddleware h later) := rfl

theorem applyMiddleware_append {ρ : Type} (h : echo.HandlerFunc ρ)
    (first later : List (echo.MiddlewareFunc ρ)) :
    applyMiddleware h (first ++ later) = applyMiddleware (applyMiddleware h later) first := by
  unfold applyMiddleware
  rw [List.foldr_append]

theorem chain_cons {ρ : Type} (B : Behaviour ρ) (m : EchoMiddleware) (later : List EchoMiddleware)
    (handler : EchoHandler) :
    chain B (m :: later) handler = B.echoMiddleware m (chain B later handler) := rfl

theorem chain_append {ρ : Type} (B : Behaviour ρ) (first later : List EchoMiddleware)
    (handler : EchoHandler) :
    chain B (first ++ later) handler =
      applyMiddleware (chain B later handler) (first.map B.echoMiddleware) := by
  unfold chain
  rw [List.map_append, applyMiddleware_append]

/-- A chain whose first stage is a wrapped middleware that short-circuits on the request
yields that middleware's outcome. -/
theorem chain_short_circuit {ρ : Type} (B : Behaviour ρ) (mw : Middleware)
    (later : List EchoMiddleware) (handler : EchoHandler) (c : EchoContext) (r : ρ)
    (h : ShortCircuits (B.middleware mw) { Context := c } r) :
    chain B (.wrapMiddleware mw :: later) handler c = r := by
  rw [chain_cons]
  exact h _

/-- C2: for every middleware `mw`, every downstream handler `h` and every request context
`c`, `wrapMiddleware(mw)(h)(c)` is exactly what `mw` produces on `web.Context{Context: c}`;
so when `mw` returns `r` there without invoking the handler it was given, the wrapped
middleware returns `r` whatever `h` is, also when `h` is the chain of every later stage and
of the route handler: none of them is invoked. -/
theorem wrapMiddleware_short_circuit {ρ : Type} (mw : web.MiddlewareFunc ρ) (c : EchoContext)
    (r : ρ) (hmw : ShortCircuits mw { Context := c } r) :
    (∀ h : echo.HandlerFunc ρ, wrapMiddleware mw h c = mw (fun w => h w.asEcho) { Context := c }) ∧
    (∀ h : echo.HandlerFunc ρ, wrapMiddleware mw h c = r) ∧
    (∀ h h2 : echo.HandlerFunc ρ, wrapMiddleware mw h c = wrapMiddleware mw h2 c) ∧
    (∀ (later : List (echo.MiddlewareFunc ρ)) (handler : echo.HandlerFunc ρ),
      applyMiddleware handler (wrapMiddleware mw :: later) c = r) := by
  refine ⟨fun h => rfl, fun h => hmw _, fun h h2 => ?_, fun later handler => ?_⟩
  · rw [wrapMiddleware_apply, wrapMiddleware_apply, hmw, hmw]
  · rw [applyMiddleware_cons]
    exact hmw _

/-- Witness of C2: `IsAuthenticated` on a request without identity ends with 401, and a
downstream handler that would answer 200 is not consulted. -/
theorem wrapMiddleware_short_circuit_witness :
    wrapMiddleware (IsAuthenticated 401) (fun _ => 200) anonymousRequest = 401 :=
  (wrapMiddleware_short_circuit (IsAuthenticated 401) anonymousRequest 401
    (fun _ => rfl)).2.1 (fun _ => 200)


/-! ## Theorems: the routes of `GetMainEngine` -/

/-- The groups of `GetMainEngine` when it returns. -/
theorem buildMainEngine_groups (ctx : WechyServices) (MustGet : String → String) :
    (buildMainEngine ctx MustGet).groups =
      [ { name := "/assets", middleware := [.wrapMiddleware .OneYearCache] },
        { name := "/oauth",
          middleware := [.wrapMiddleware (.HostChecker (MustGet "AUTH_ENDPOINT"))] },
        { name := "",
          middleware := [.wrapMiddleware (.MultiTenant ctx.Tenant),
            .wrapMiddleware (.JwtGetter ctx.User), .wrapMiddleware .JwtSetter] },
        { name := "/api",
          middleware := [.wrapMiddleware (.MultiTenant ctx.Tenant),
            .wrapMiddleware (.JwtGetter ctx.User), .wrapMiddleware .JwtSetter,
            .wrapMiddleware .IsAuthenticated] },
        { name := "/admin",
          middleware := [.wrapMiddleware (.MultiTenant ctx.Tenant),
            .wrapMiddleware (.JwtGetter ctx.User), .wrapMiddleware .JwtSetter,
            .wrapMiddleware .IsAuthenticated,
            .wrapMiddleware (.IsAuthorized [.RoleMember, .RoleAdministrator])] } ] := rfl

/-- The routing table of `GetMainEngine`, in registration order. -/
theorem GetMainEngine_routes (ctx : WechyServices) (MustGet : String → String) :
    (GetMainEngine ctx MustGet).routes =
      [ ⟨"GET", "/favicon.ico", .static "favicon.ico", []⟩,
        ⟨"GET", "/favicon.ico/*", .static "favicon.ico", []⟩,
        ⟨"GET", "/assets/", .static "dist", [.wrapMiddleware .OneYearCache]⟩,
        ⟨"GET", "/assets/*", .static "dist", [.wrapMiddleware .OneYearCache]⟩,
        ⟨"GET", "/oauth/facebook",
          .wrapFunc (.OAuthLogin ⟨ctx.Tenant, ctx.OAuth, ctx.User⟩ .FacebookProvider),
          [.wrapMiddleware (.HostChecker (MustGet "AUTH_ENDPOINT"))]⟩,
        ⟨"GET", "/oauth/facebook/callback",
          .wrapFunc (.OAuthCallback ⟨ctx.Tenant, ctx.OAuth, ctx.User⟩ .FacebookProvider),
          [.wrapMiddleware (.HostChecker (MustGet "AUTH_ENDPOINT"))]⟩,
        ⟨"GET", "/oauth/google",
          .wrapFunc (.OAuthLogin ⟨ctx.Tenant, ctx.OAuth, ctx.User⟩ .GoogleProvider),
          [.wrapMiddleware (.HostChecker (MustGet "AUTH_ENDPOINT"))]⟩,
        ⟨"GET", "/oauth/google/callback",
          .wrapFunc (.OAuthCallback ⟨ctx.Tenant, ctx.OAuth, ctx.User⟩ .GoogleProvider),
          [.wrapMiddleware (.HostChecker (MustGet "AUTH_ENDPOINT"))]⟩,
        ⟨"GET", "/", .wrapFunc (.IdeaList ctx.Idea),
          [.wrapMiddleware (.MultiTenant ctx.Tenant), .wrapMiddleware (.JwtGetter ctx.User),
            .wrapMiddleware .JwtSetter]⟩,
        ⟨"GET", "/ideas/:number", .wrapFunc (.IdeaDetails ctx.Idea),
          [.wrapMiddleware (.MultiTenant ctx.Tenant), .wrapMiddleware (.JwtGetter ctx.User),
            .wrapMiddleware .JwtSetter]⟩,
        ⟨"GET", "/logout", .wrapFunc (.OAuthLogout ⟨ctx.Tenant, ctx.OAuth, ctx.User⟩),
          [.wrapMiddleware (.MultiTenant ctx.Tenant), .wrapMiddleware (.JwtGetter ctx.User),
            .wrapMiddleware .JwtSetter]⟩,
        ⟨"GET", "/api/status", .wrapFunc (.Status ctx.Settings),
          [.wrapMiddleware (.MultiTenant ctx.Tenant), .wrapMiddleware (.JwtGetter ctx.User),
            .wrapMiddleware .JwtSetter]⟩,
        ⟨"POST", "/api/ideas", .wrapFunc (.PostIdea ctx.Idea),
          [.wrapMiddleware (.MultiTenant ctx.Tenant), .wrapMiddleware (.JwtGetter ctx.User),
            .wrapMiddleware .JwtSetter, .wrapMiddleware .IsAuthenticated]⟩,
        ⟨"POST", "/api/ideas/:id/comments", .wrapFunc (.PostComment ctx.Idea),
          [.wrapMiddleware (.MultiTenant ctx.Tenant), .wrapMiddleware (.JwtGetter ctx.User),
            .wrapMiddleware .JwtSetter, .wrapMiddleware .IsAuthenticated]⟩,
        ⟨"GET", "/admin", .wrapFunc .AdminWelcome,
          [.wrapMiddleware (.MultiTenant ctx.Tenant), .wrapMiddleware (.JwtGetter ctx.User),
            .wrapMiddleware .JwtSetter, .wrapMiddleware .IsAuthenticated,
            .wrapMiddleware (.IsAuthorized [.RoleMember, .RoleAdministrator])]⟩ ] := by
  simp [GetMainEngine, buildMainEngine, get, post, use, group, Group.GET, Group.POST, Group.Use,
    Group.Static, Echo.Static, Echo.Add, Echo.Use, Echo.New]


/-- The two shapes of a pipeline: either it has no tenant-scoped stage at all, or it starts
with the tenant resolver and has no second one. -/
theorem route_shapes (ctx : WechyServices) (MustGet : String → String) :
    ∀ r ∈ (GetMainEngine ctx MustGet).routes,
      (∀ m ∈ r.middleware, m.is Middleware.isTenantScoped = false) ∨
      (∃ later, r.middleware = .wrapMiddleware (.MultiTenant ctx.Tenant) :: later ∧
        ∀ m ∈ later, m.is Middleware.isMultiTenant = false) := by
  rw [GetMainEngine_routes]
  intro r hr
  simp only [List.mem_cons, List.mem_singleton, List.not_mem_nil, or_false] at hr
  rcases hr with rfl | rfl | rfl | rfl | rfl | rfl | rfl | rfl | rfl | rfl | rfl | rfl |
    rfl | rfl | rfl
  all_goals first
    | (left; simp [EchoMiddleware.is, Middleware.isTenantScoped]; done)
    | (right; exact ⟨_, rfl, by simp [EchoMiddleware.is, Middleware.isMultiTenant]⟩)

/-- `GetMainEngine` installs `errorHandler` as the engine's `HTTPErrorHandler`. -/
theorem GetMainEngine_HTTPErrorHandler (ctx : WechyServices) (MustGet : String → String) :
    (GetMainEngine ctx MustGet).HTTPErrorHandler = some errorHandler := rfl

/-- C1: in `GetMainEngine`, every group that registers a tenant-scoped middleware is one of
the app group `""`, `/api` and `/admin` (and each of these does); its middleware list
starts with `MultiTenant`, `JwtGetter`, `JwtSetter`, in that order, and `IsAuthenticated`
and `IsAuthorized` occur at positions after these three only. So in the pipeline of every
route an authorization stage or an identity read has the tenant resolver at an earlier
position, and at no later one. -/
theorem tenant_scoped_groups_order (ctx : WechyServices) (MustGet : String → String) :
    (∀ g ∈ (buildMainEngine ctx MustGet).groups,
      (∃ m ∈ g.middleware, m.is Middleware.isTenantScoped = true) →
        (g.name = "" ∨ g.name = "/api" ∨ g.name = "/admin") ∧
        g.middleware.take 3 = [.wrapMiddleware (.MultiTenant ctx.Tenant),
          .wrapMiddleware (.JwtGetter ctx.User), .wrapMiddleware .JwtSetter] ∧
        (∀ (i : Nat) (m : EchoMiddleware),
          g.middleware[i]? = some m → m.is Middleware.isAuthorization = true → 3 ≤ i)) ∧
    (∀ name ∈ ["", "/api", "/admin"], ∃ g ∈ (buildMainEngine ctx MustGet).groups,
      g.name = name ∧ ∃ m ∈ g.middleware, m.is Middleware.isTenantScoped = true) ∧
    (∀ r ∈ (GetMainEngine ctx MustGet).routes, ∀ (i : Nat) (m : EchoMiddleware),
      r.middleware[i]? = some m →
      (m.is Middleware.isAuthorization = true ∨ m.is Middleware.isJwtGetter = true) →
        (∃ (j : Nat) (t : EchoMiddleware),
          j < i ∧ r.middleware[j]? = some t ∧ t.is Middleware.isMultiTenant = true) ∧
        (∀ (j : Nat) (t : EchoMiddleware),
          r.middleware[j]? = some t → t.is Middleware.isMultiTenant = true → j < i)) := by
  refine ⟨?_, ?_, ?_⟩
  · rw [buildMainEngine_groups]
    intro g hg hex
    simp only [List.mem_cons, List.mem_singleton, List.not_mem_nil, or_false] at hg
    rcases hg with rfl | rfl | rfl | rfl | rfl
    · simp [EchoMiddleware.is, Middleware.isTenantScoped] at hex
    · simp [EchoMiddleware.is, Middleware.isTenantScoped] at hex
    · refine ⟨Or.inl rfl, rfl, ?_⟩
      intro i m hi hm
      rcases i with _ | _ | _ | i <;> simp at hi <;> subst hi <;>
        simp [EchoMiddleware.is, Middleware.isAuthorization] at hm
    · refine ⟨Or.inr (Or.inl rfl), rfl, ?_⟩
      intro i m hi hm
      rcases i with _ | _ | _ | i
      · simp at hi; subst hi; simp [EchoMiddleware.is, Middleware.isAuthorization] at hm
      · simp at hi; subst hi; simp [EchoMiddleware.is, Middleware.isAuthorization] at hm
      · simp at hi; subst hi; simp [EchoMiddleware.is, Middleware.isAuthorization] at hm
      · omega
    · refine ⟨Or.inr (Or.inr rfl), rfl, ?_⟩
      intro i m hi hm
      rcases i with _ | _ | _ | i
      · simp at hi; subst hi; simp [EchoMiddleware.is, Middleware.isAuthorization] at hm
      · simp at hi; subst hi; simp [EchoMiddleware.is, Middleware.isAuthorization] at hm
      · simp at hi; subst hi; simp [EchoMiddleware.is, Middleware.isAuthorization] at hm
      · omega
  · rw [buildMainEngine_groups]
    intro name hname
    simp only [List.mem_cons, List.mem_singleton, List.not_mem_nil, or_false] at hname
    rcases hname with rfl | rfl | rfl <;>
      simp [EchoMiddleware.is, Middleware.isTenantScoped]
  · intro r hr i m hi hm
    have hscoped : m.is Middleware.isTenantScoped = true := by
      rcases m with _ | mw
      · simp [EchoMiddleware.is] at hm
      · cases mw <;> simp [EchoMiddleware.is, Middleware.isAuthorization,
          Middleware.isJwtGetter] at hm <;> rfl
    have hnot : m.is Middleware.isMultiTenant = false := by
      rcases m with _ | mw
      · rfl
      · cases mw <;> simp [EchoMiddleware.is, Middleware.isAuthorization,
          Middleware.isJwtGetter] at hm <;> rfl
    rcases route_shapes ctx MustGet r hr with hnone | ⟨later, hshape, hlater⟩
    · rw [hnone m (List.getElem?_mem hi)] at hscoped
      exact absurd hscoped (by decide)
    · have hpos : 0 < i := by
        rcases i with _ | i
        · rw [hshape] at hi
          simp at hi
          subst hi
          simp [EchoMiddleware.is, Middleware.isMultiTenant] at hnot
        · exact Nat.succ_pos i
      refine ⟨⟨0, .wrapMiddleware (.MultiTenant ctx.Tenant), hpos, ?_, rfl⟩, ?_⟩
      · rw [hshape]
        simp
      · intro j t hj ht
        rcases j with _ | j
        · exact hpos
        · exfalso
          rw [hshape] at hj
          simp at hj
          rw [hlater t (List.getElem?_mem hj)] at ht
          exact absurd ht (by decide)

/-- C5, as stated, fails: the role set the group `/admin` hands to `IsAuthorized` admits an
identity with role Member, and the request of a Member reaches the handler of
`GET /admin` (outcome 200, not 403). -/
theorem admin_admits_member_counterexample :
    ∃ r ∈ (GetMainEngine sampleServices sampleMustGet).routesAt "GET" "/admin",
      ∃ roles ∈ authorizedRoleSets r.middleware,
        AuthorizationGate (some ⟨7, 1, .RoleMember⟩) roles = .allow ∧
        r.serve sampleBehaviour (requestOf .RoleMember) = 200 := by
  decide

/-- C5, amended: the group `/admin` hands to `IsAuthorized` the role set Member,
Administrator. Under the rule of the AuthorizationGate this set admits an identity with
role Administrator and admits an identity with role Member; it denies an identity with
role Visitor (`AuthorizationError`) and an absent identity (`AuthenticationError`). -/
theorem admin_role_set (ctx : WechyServices) (MustGet : String → String) :
    (∀ g ∈ (buildMainEngine ctx MustGet).groups, g.name = "/admin" →
      authorizedRoleSets g.middleware = [[.RoleMember, .RoleAdministrator]]) ∧
    (∀ r ∈ (GetMainEngine ctx MustGet).routesAt "GET" "/admin",
      authorizedRoleSets r.middleware = [[.RoleMember, .RoleAdministrator]]) ∧
    (∃ r, (GetMainEngine ctx MustGet).routesAt "GET" "/admin" = [r]) ∧
    (∀ user : models.User,
      (user.role = .RoleAdministrator →
        AuthorizationGate (some user) [.RoleMember, .RoleAdministrator] = .allow) ∧
      (user.role = .RoleMember →
        AuthorizationGate (some user) [.RoleMember, .RoleAdministrator] = .allow) ∧
      (user.role = .RoleVisitor →
        AuthorizationGate (some user) [.RoleMember, .RoleAdministrator] = .AuthorizationError)) ∧
    AuthorizationGate none [.RoleMember, .RoleAdministrator] = .AuthenticationError := by
  refine ⟨?_, ?_, ?_, ?_, rfl⟩
  · rw [buildMainEngine_groups]
    intro g hg hname
    simp only [List.mem_cons, List.mem_singleton, List.not_mem_nil, or_false] at hg
    rcases hg with rfl | rfl | rfl | rfl | rfl
    all_goals first
      | (exfalso; revert hname; simp only []; decide)
      | rfl
  · unfold Echo.routesAt
    rw [GetMainEngine_routes]
    intro r hr
    have h : r = ⟨"GET", "/admin", .wrapFunc .AdminWelcome,
        [.wrapMiddleware (.MultiTenant ctx.Tenant), .wrapMiddleware (.JwtGetter ctx.User),
          .wrapMiddleware .JwtSetter, .wrapMiddleware .IsAuthenticated,
          .wrapMiddleware (.IsAuthorized [.RoleMember, .RoleAdministrator])]⟩ :=
      List.mem_singleton.mp hr
    rw [h]
    rfl
  · unfold Echo.routesAt
    rw [GetMainEngine_routes]
    exact ⟨_, rfl⟩
  · intro user
    rcases user with ⟨id, tenant, role⟩
    refine ⟨?_, ?_, ?_⟩ <;> intro h <;> simp only at h <;> subst h <;> rfl

/-- Witness of the amended C5: the user 7 of tenant 1, a Member, is admitted by the role
set of the group `/admin`. -/
theorem admin_role_set_witness :
    AuthorizationGate (some ⟨7, 1, .RoleMember⟩) [.RoleMember, .RoleAdministrator] = .allow :=
  ((admin_role_set sampleServices sampleMustGet).2.2.2.1 ⟨7, 1, .RoleMember⟩).2.1 rfl


/-- C6: every route registered on the protected groups (`POST /api/ideas`,
`POST /api/ideas/:id/comments`, `GET /admin`) has `IsAuthenticated` in its pipeline, after
`JwtGetter` and before the handler: the route is served by the stages before
`IsAuthenticated` around the chain that starts at `IsAuthenticated`. So, given that
`IsAuthenticated` ends the chain with `unauthenticated` when no identity is attached, on a
request without identity the chain from `IsAuthenticated` on yields `unauthenticated`
whatever handler stands at its end: such a request never reaches the handler. -/
theorem protected_routes_authenticated (ctx : WechyServices) (MustGet : String → String) :
    (∀ r ∈ (GetMainEngine ctx MustGet).routes, (r.method, r.path) ∈ protectedRoutes →
      r.middleware = stagesBefore authenticationStage r.middleware ++
        authenticationStage :: stagesAfter authenticationStage r.middleware ∧
      .wrapMiddleware (.JwtGetter ctx.User) ∈ stagesBefore authenticationStage r.middleware ∧
      (∀ {ρ : Type} (B : Behaviour ρ), r.serve B =
        applyMiddleware
          (chain B (authenticationStage :: stagesAfter authenticationStage r.middleware) r.handler)
          ((stagesBefore authenticationStage r.middleware).map B.echoMiddleware)) ∧
      (∀ {ρ : Type} (B : Behaviour ρ) (unauthenticated : ρ),
        (∀ w : web.Context, w.User = none →
          ShortCircuits (B.middleware .IsAuthenticated) w unauthenticated) →
        ∀ (c : EchoContext) (handler : EchoHandler), c.scope.user = none →
          chain B (authenticationStage :: stagesAfter authenticationStage r.middleware) handler c =
            unauthenticated)) ∧
    (∀ key ∈ protectedRoutes, ∃ r, (GetMainEngine ctx MustGet).routesAt key.1 key.2 = [r]) := by
  refine ⟨?_, ?_⟩
  · rw [GetMainEngine_routes]
    intro r hr hkey
    simp only [List.mem_cons, List.mem_singleton, List.not_mem_nil, or_false] at hr
    rcases hr with rfl | rfl | rfl | rfl | rfl | rfl | rfl | rfl | rfl | rfl | rfl | rfl |
      rfl | rfl | rfl
    all_goals first
      | (exfalso; revert hkey; simp only []; decide)
      | (refine ⟨rfl, ?_, fun B => rfl, ?_⟩
         · show _ ∈ [EchoMiddleware.wrapMiddleware (.MultiTenant ctx.Tenant),
             .wrapMiddleware (.JwtGetter ctx.User), .wrapMiddleware .JwtSetter]
           simp
         · intro ρ B unauthenticated hB c handler hc
           exact chain_short_circuit B _ _ _ c unauthenticated (hB _ hc))
  · intro key hkey
    simp only [protectedRoutes, List.mem_cons, List.mem_singleton, List.not_mem_nil,
      or_false] at hkey
    unfold Echo.routesAt
    rw [GetMainEngine_routes]
    rcases hkey with rfl | rfl | rfl <;> exact ⟨_, rfl⟩

/-- Witness of C6: with `IsAuthenticated` of the spec, a request without identity gets 401
from the stages of `GET /admin` that start at `IsAuthenticated`, and from the route. -/
theorem protected_routes_authenticated_witness :
    ∀ r ∈ (GetMainEngine sampleServices sampleMustGet).routesAt "GET" "/admin",
      chain sampleBehaviour
        (authenticationStage :: stagesAfter authenticationStage r.middleware) r.handler
        anonymousRequest = 401 ∧
      r.serve sampleBehaviour anonymousRequest = 401 := by
  intro r hr
  have hmem : r ∈ (GetMainEngine sampleServices sampleMustGet).routes :=
    (List.mem_filter.mp hr).1
  have hkey : (r.method, r.path) ∈ protectedRoutes := by
    have h := (List.mem_filter.mp hr).2
    simp only [decide_eq_true_eq] at h
    rw [h.1, h.2]
    decide
  refine ⟨((protected_routes_authenticated sampleServices sampleMustGet).1 r hmem hkey).2.2.2
    sampleBehaviour 401 ?_ anonymousRequest r.handler rfl, ?_⟩
  · intro w hw next
    show IsAuthenticated 401 next w = 401
    unfold IsAuthenticated
    rw [hw]
  · revert r
    decide


/-! ## Theorems: the settings handlers -/

/-- The four runs of `UpdateSettings` over the sample collaborators: binding fails; the
upload fails; the write fails; all succeed (the write is counted once). -/
theorem UpdateSettings_samples :
    UpdateSettings (sampleCollaborators false none none) ⟨0, []⟩ =
      (.HandleValidation ⟨false, []⟩, ⟨0, [.BindTo]⟩) ∧
    UpdateSettings (sampleCollaborators true (some "disk full") none) ⟨0, []⟩ =
      (.Failure "disk full", ⟨0, [.BindTo, .ProcessImageUpload 10 "logos"]⟩) ∧
    UpdateSettings (sampleCollaborators true none (some "bus down")) ⟨0, []⟩ =
      (.Failure "bus down", ⟨0, [.BindTo, .ProcessImageUpload 10 "logos",
        .Dispatch ⟨⟨11, "title"⟩⟩]⟩) ∧
    UpdateSettings (sampleCollaborators true none none) ⟨0, []⟩ =
      (.Ok [], ⟨1, [.BindTo, .ProcessImageUpload 10 "logos", .Dispatch ⟨⟨11, "title"⟩⟩]⟩) := by
  refine ⟨rfl, rfl, rfl, rfl⟩

/-- The outcomes of every route, in registration order, for a request of the unknown host,
for a request without identity, and for the requests of a Visitor, a Member and an
Administrator (static files and `/oauth` first, then the app group, `/api`, `/admin`). -/
theorem GetMainEngine_samples :
    (GetMainEngine sampleServices sampleMustGet).routes.map
        (fun r => r.serve sampleBehaviour ghostRequest) =
      [200, 200, 200, 200, 200, 200, 200, 200, 404, 404, 404, 404, 404, 404, 404] ∧
    (GetMainEngine sampleServices sampleMustGet).routes.map
        (fun r => r.serve sampleBehaviour anonymousRequest) =
      [200, 200, 200, 200, 200, 200, 200, 200, 200, 200, 200, 200, 401, 401, 401] ∧
    (GetMainEngine sampleServices sampleMustGet).routes.map
        (fun r => r.serve sampleBehaviour (requestOf .RoleVisitor)) =
      [200, 200, 200, 200, 200, 200, 200, 200, 200, 200, 200, 200, 200, 200, 403] ∧
    (GetMainEngine sampleServices sampleMustGet).routes.map
        (fun r => r.serve sampleBehaviour (requestOf .RoleMember)) =
      [200, 200, 200, 200, 200, 200, 200, 200, 200, 200, 200, 200, 200, 200, 200] ∧
    (GetMainEngine sampleServices sampleMustGet).routes.map
        (fun r => r.serve sampleBehaviour (requestOf .RoleAdministrator)) =
      [200, 200, 200, 200, 200, 200, 200, 200, 200, 200, 200, 200, 200, 200, 200] := by
  decide

/-- C10: for `UpdateSettings` and `SaveOAuthConfig`, over every outcome of the collaborators
(input binding, image upload, command dispatch or configuration save): the steps run in
that order and the first failure short-circuits. When binding fails the validation response
is returned and neither the image upload nor the write is attempted; when the image upload
fails, `Failure` carrying that error is returned and the write is not attempted; when the
write fails, `Failure` carrying that error is returned; the handler returns `Ok` if and
only if the three steps succeeded; and the write is performed at most once. -/
theorem settings_handlers_first_failure_wins {σ ε L R : Type} (k : Collaborators σ ε L R)
    (c : HandlerContext σ L R) :
    (UpdateSettings k c).2.calls = c.calls ++ callsOf c (UpdateSettings k c) ∧
    (SaveOAuthConfig k c).2.calls = c.calls ++ callsOf c (SaveOAuthConfig k c) ∧
    (let bound := k.BindTo c.state
     let uploaded := k.ProcessImageUpload bound.1.2.Logo "logos" bound.2
     let model : actions.Model L R := { bound.1.2 with Logo := uploaded.1.2 }
     let dispatched := k.Dispatch { Settings := model } uploaded.2
     let saved := k.SaveOAuthConfig model uploaded.2
     FirstFailureWins bound.1.1 uploaded.1.1 dispatched.1
       [.BindTo, .ProcessImageUpload bound.1.2.Logo "logos", .Dispatch { Settings := model }]
       bound.2 uploaded.2 dispatched.2
       (UpdateSettings k c).1 (callsOf c (UpdateSettings k c)) (UpdateSettings k c).2.state ∧
     FirstFailureWins bound.1.1 uploaded.1.1 saved.1
       [.BindTo, .ProcessImageUpload bound.1.2.Logo "logos", .SaveOAuthConfig model]
       bound.2 uploaded.2 saved.2
       (SaveOAuthConfig k c).1 (callsOf c (SaveOAuthConfig k c)) (SaveOAuthConfig k c).2.state) := by
  rcases hb : k.BindTo c.state with ⟨⟨result, input⟩, s1⟩
  rcases hu : k.ProcessImageUpload input.Logo "logos" s1 with ⟨⟨uploadErr, logo⟩, s2⟩
  rcases hd : k.Dispatch { Settings := { input with Logo := logo } } s2 with ⟨dispatchErr, s3⟩
  rcases hs : k.SaveOAuthConfig { input with Logo := logo } s2 with ⟨saveErr, s4⟩
  rcases result with ⟨ok, messages⟩
  cases ok <;> cases uploadErr <;> cases dispatchErr <;> cases saveErr <;>
    simp [FirstFailureWins, callsOf, UpdateSettings, SaveOAuthConfig, HandlerContext.BindTo,
      HandlerContext.ProcessImageUpload, HandlerContext.Dispatch, HandlerContext.SaveOAuthConfig,
      hb, hu, hd, hs, Call.isWrite, Call.isUpload, Response.isOk]


/-- Witness of C10: binding succeeds and the image upload fails with `disk full`; both
handlers return `Failure` carrying that error after the two calls, without any write. -/
theorem settings_handlers_first_failure_wins_witness :
    (UpdateSettings (sampleCollaborators true (some "disk full") none) ⟨0, []⟩).1 =
      .Failure "disk full" ∧
    callsOf ⟨0, []⟩ (UpdateSettings (sampleCollaborators true (some "disk full") none) ⟨0, []⟩) =
      [.BindTo, .ProcessImageUpload 10 "logos"] ∧
    (SaveOAuthConfig (sampleCollaborators true (some "disk full") none) ⟨0, []⟩).1 =
      .Failure "disk full" ∧
    (SaveOAuthConfig (sampleCollaborators true (some "disk full") none) ⟨0, []⟩).2.state = 0 :=
  have h := (settings_handlers_first_failure_wins
    (sampleCollaborators true (some "disk full") none) ⟨0, []⟩).2.2
  have hu := h.1.2.1 rfl "disk full" rfl
  have hs := h.2.2.1 rfl "disk full" rfl
  ⟨hu.1, hu.2.1, hs.1, hs.2.2.1⟩


end Wechy
